import Mathlib

/-!
Shallow embedding of `src/web/src/elements/oauth/UserRefreshList.ts` from the
authentik web front-end, together with the minimal surface of its external
collaborators (the generated `authentik-api` OAuth2 client, the table
primitives, the delete-form element and the lit template values) that the
component touches.  The component `UserOAuthRefreshList` lists a user's
OAuth2 refresh-token grants and offers per-row deletion.
-/

/-- A provider reference as carried by the API record; the component only
reads its `name`. -/
structure Provider where
  name : String
deriving Repr, DecidableEq

/-- A JavaScript `Date` as this component uses it: opaque except for its
locale-dependent rendering.  The output of the browser's `toLocaleString`
is modelled as data carried by the date value. -/
structure JSDate where
  localeString : String
deriving Repr, DecidableEq

/-- The locale-dependent rendering `Date.prototype.toLocaleString`. -/
def JSDate.toLocaleString (d : JSDate) : String :=
  d.localeString

/-- The API record `ExpiringBaseGrantModel` from the generated
`authentik-api` client: an identifier `pk`, a provider reference, an
expiration timestamp and the granted scope strings.  `pk` and `expires`
are modelled as optional: the component guards them (`item.pk || 0`,
`item.expires?.`). -/
structure ExpiringBaseGrantModel where
  pk : Option Nat
  provider : Provider
  expires : Option JSDate
  scope : List String
deriving Repr, DecidableEq

/-- Modelled from the spec: the pagination envelope of `AKResponse` in
`src/web/src/api/Client.ts`, which is not under `src/`; the component never
inspects it, it only appears in the response type. -/
structure AKPagination where
  count : Nat
  current : Nat
deriving Repr, DecidableEq

/-- Modelled from the spec: the list-response envelope `AKResponse` from
`src/web/src/api/Client.ts` (not under `src/`): pagination plus results. -/
structure AKResponse (α : Type) where
  pagination : AKPagination
  results : List α
deriving Repr, DecidableEq

/-- Modelled from the spec: the client configuration type of the generated
API client; this component only ever passes `DEFAULT_CONFIG`, so the
configuration is opaque data here. -/
structure Config where
  tag : String
deriving Repr, DecidableEq

/-- Modelled from the spec: the shared configuration value
`DEFAULT_CONFIG` from `src/web/src/api/Config.ts` (not under `src/`). -/
def DEFAULT_CONFIG : Config :=
  ⟨"DEFAULT_CONFIG"⟩

/-- Modelled from the spec: the page-size constant `PAGE_SIZE` imported
from `src/web/src/constants.ts`, which is not under `src/`.  No claim
depends on its numeric value, only on the constant being passed through;
the repository sets it to 20. -/
def PAGE_SIZE : Nat :=
  20

/-- Request parameters of the generated list operation
`Oauth2Api.oauth2RefreshTokensList`, as the component fills them. -/
structure Oauth2RefreshTokensListRequest where
  user : Option String
  ordering : String
  page : Nat
  pageSize : Nat
deriving Repr, DecidableEq

/-- An invocation of the generated OAuth2 API client.  The two
refresh-token operations are the ones this component uses; `otherOp`
stands for every other endpoint of the generated client. -/
inductive ApiCall where
  | oauth2RefreshTokensList (req : Oauth2RefreshTokensListRequest)
  | oauth2RefreshTokensDelete (id : Nat)
  | otherOp (name : String)
deriving Repr, DecidableEq

/-- A rejection carried by a failed API promise. -/
structure ApiError where
  message : String
deriving Repr, DecidableEq

/-- A promise returned by the generated client, as far as this component
can manipulate it: either the bare pending API call exactly as the client
produced it, or that promise with a rejection handler attached (`catch`).
The component never attaches one, so its promises are always `pending`. -/
inductive ApiPromise (α : Type) where
  | pending (call : ApiCall)
  | caught (p : ApiPromise α) (handler : ApiError → Except ApiError α)

/-- Resolve a promise against an environment `env` giving each API call's
outcome: a rejection handler may recover from an error, a bare call just
reports the environment's outcome. -/
def ApiPromise.resolve {α : Type} (env : ApiCall → Except ApiError α) :
    ApiPromise α → Except ApiError α
  | .pending c => env c
  | .caught p h =>
    match p.resolve env with
    | .ok a => .ok a
    | .error e => h e

/-- Whether any rejection handler (`catch`) has been attached. -/
def ApiPromise.hasRejectionHandler {α : Type} : ApiPromise α → Bool
  | .pending _ => false
  | .caught _ _ => true

/-- The API calls underlying a promise. -/
def ApiPromise.calls {α : Type} : ApiPromise α → List ApiCall
  | .pending c => [c]
  | .caught p _ => p.calls

/-- Modelled from the spec: the generated `Oauth2Api` client class from the
external `authentik-api` package, restricted to the two operations the
component invokes.  Calling an operation yields the bare promise of the
corresponding HTTP request. -/
structure Oauth2Api where
  config : Config

/-- The generated list operation `GET /oauth2/refresh_tokens/`. -/
def Oauth2Api.oauth2RefreshTokensList (_api : Oauth2Api)
    (req : Oauth2RefreshTokensListRequest) :
    ApiPromise (AKResponse ExpiringBaseGrantModel) :=
  .pending (.oauth2RefreshTokensList req)

/-- The generated delete operation `DELETE /oauth2/refresh_tokens/{id}/`. -/
def Oauth2Api.oauth2RefreshTokensDelete (_api : Oauth2Api) (id : Nat) :
    ApiPromise Unit :=
  .pending (.oauth2RefreshTokensDelete id)

/-- The lingui `t` macro: marks a source string for translation and yields
the (here: untranslated) string itself. -/
def t (s : String) : String :=
  s

/-- Modelled from the spec: the `TableColumn` UI primitive from
`src/web/src/elements/table/Table.ts` (not under `src/`): a column header
title with an optional sort key, `new TableColumn(title, orderBy?)`. -/
structure TableColumn where
  title : String
  orderBy : Option String
deriving Repr, DecidableEq

/-- A lit template as this component produces one per cell: either a single
interpolated JavaScript value rendered as text (`none` is JavaScript
`undefined`, which lit renders as nothing), or the `ak-forms-delete`
element with its bound object, label, delete callback and trigger
button label. -/
inductive TemplateResult where
  | text (value : Option String)
  | deleteForm (obj : ExpiringBaseGrantModel) (objectLabel : String)
      (delete : Unit → ApiPromise Unit) (triggerLabel : String)

/-- The text a cell renders: an interpolated `undefined` renders empty; a
delete-form cell renders no plain text. -/
def TemplateResult.renderedText : TemplateResult → Option String
  | .text v => some (v.getD "")
  | .deleteForm _ _ _ _ => none

/-- The API calls a cell can cause: only the delete callback of a
delete-form cell makes any. -/
def TemplateResult.calls : TemplateResult → List ApiCall
  | .text _ => []
  | .deleteForm _ _ d _ => (d ()).calls

/-- The single API call the delete callback of a cell is bound to, when the
cell is a delete form whose callback yields a bare promise. -/
def TemplateResult.boundDelete : TemplateResult → Option ApiCall
  | .text _ => none
  | .deleteForm _ _ d _ =>
    match d () with
    | .pending c => some c
    | .caught _ _ => none

/-- The delete callback's promise of a delete-form cell. -/
def TemplateResult.deletePromise : TemplateResult → Option (ApiPromise Unit)
  | .text _ => none
  | .deleteForm _ _ d _ => some (d ())

/-- The component `UserOAuthRefreshList` (`ak-user-oauth-refresh-list`):
its only own state is the `userId` property. -/
structure UserOAuthRefreshList where
  userId : Option String
deriving Repr, DecidableEq

/-- The component's declared `order` field, initialised to `"-expires"`
and never reassigned. -/
def UserOAuthRefreshList.order (_self : UserOAuthRefreshList) : String :=
  "-expires"

/-- `apiEndpoint(page)`: list refresh tokens for `this.userId`, ordered by
`"expires"`, at the given page with `PAGE_SIZE` items, returning the
client's promise directly. -/
def UserOAuthRefreshList.apiEndpoint (self : UserOAuthRefreshList)
    (page : Nat) : ApiPromise (AKResponse ExpiringBaseGrantModel) :=
  (Oauth2Api.mk DEFAULT_CONFIG).oauth2RefreshTokensList
    ⟨self.userId, "expires", page, PAGE_SIZE⟩

/-- `apiEndpoint` with the receiver threaded explicitly: the method body
contains no assignment to `this`, so the component comes back unchanged. -/
def UserOAuthRefreshList.apiEndpointSt (self : UserOAuthRefreshList)
    (page : Nat) :
    ApiPromise (AKResponse ExpiringBaseGrantModel) × UserOAuthRefreshList :=
  (self.apiEndpoint page, self)

/-- `columns()`: the four table columns the component declares. -/
def UserOAuthRefreshList.columns (_self : UserOAuthRefreshList) :
    List TableColumn :=
  [⟨t "Provider", some (t "provider")⟩,
   ⟨t "Expires", some (t "expires")⟩,
   ⟨t "Scopes", some (t "scope")⟩,
   ⟨"", none⟩]

/-- `row(item)`: the four cell templates for one record — provider name,
`item.expires?.toLocaleString()`, the scopes joined by `", "`, and the
`ak-forms-delete` element whose callback deletes by `item.pk || 0`. -/
def UserOAuthRefreshList.row (_self : UserOAuthRefreshList)
    (item : ExpiringBaseGrantModel) : List TemplateResult :=
  [.text (some item.provider.name),
   .text (item.expires.map JSDate.toLocaleString),
   .text (some (String.intercalate ", " item.scope)),
   .deleteForm item (t "Refresh Code")
     (fun _ =>
       (Oauth2Api.mk DEFAULT_CONFIG).oauth2RefreshTokensDelete
         (item.pk.getD 0))
     (t "Delete Refresh Code")]

/-- Whether an API call mutates server state: deletion does; the list
operation is a read; any other endpoint is conservatively counted as a
mutation. -/
def ApiCall.isMutation : ApiCall → Bool
  | .oauth2RefreshTokensList _ => false
  | .oauth2RefreshTokensDelete _ => true
  | .otherOp _ => true

/-- Whether an API call is one of the two refresh-token operations of the
generated client. -/
def ApiCall.isRefreshTokenOp : ApiCall → Bool
  | .oauth2RefreshTokensList _ => true
  | .oauth2RefreshTokensDelete _ => true
  | .otherOp _ => false

/-- The `ordering` request parameter an API call carries, if any. -/
def ApiCall.orderingParam : ApiCall → Option String
  | .oauth2RefreshTokensList req => some req.ordering
  | .oauth2RefreshTokensDelete _ => none
  | .otherOp _ => none

/-- A concrete grant record with a present identifier, used to instantiate
theorems about rows of records that carry a `pk`. -/
def sampleItem : ExpiringBaseGrantModel :=
  ⟨some 5, ⟨"prov"⟩, some ⟨"1/1/2030, 12:00:00 AM"⟩, ["openid", "email"]⟩

/-- A concrete grant record with every optional field absent. -/
def bareItem : ExpiringBaseGrantModel :=
  ⟨none, ⟨"prov2"⟩, none, []⟩

/-- C1: the component never modifies a refresh-grant record except by
deletion: every call behind `apiEndpoint` is non-mutating, and for a
record whose identifier is `n`, the only mutating call reachable from the
rendered row is the refresh-token delete of `n` — triggering the row's
delete action invokes the delete endpoint with that record's identifier,
and the list request and the other cells mutate nothing. -/
theorem userRefreshList_frame_delete_only
    (c : UserOAuthRefreshList) (p : Nat) (item : ExpiringBaseGrantModel)
    (n : Nat) (h : item.pk = some n) :
    ((c.apiEndpoint p).calls.all fun call => !call.isMutation) = true ∧
    ((c.row item).flatMap TemplateResult.calls).filter ApiCall.isMutation
      = [ApiCall.oauth2RefreshTokensDelete n] := by
  refine ⟨rfl, ?_⟩
  simp [UserOAuthRefreshList.row, TemplateResult.calls, ApiPromise.calls,
        Oauth2Api.oauth2RefreshTokensDelete, ApiCall.isMutation, h]

/-- Witness for C1 at a concrete component, page and record. -/
theorem userRefreshList_frame_delete_only_witness :
    (((UserOAuthRefreshList.mk (some "u")).apiEndpoint 1).calls.all
        fun call => !call.isMutation) = true ∧
    (((UserOAuthRefreshList.mk (some "u")).row sampleItem).flatMap
        TemplateResult.calls).filter ApiCall.isMutation
      = [ApiCall.oauth2RefreshTokensDelete 5] :=
  userRefreshList_frame_delete_only ⟨some "u"⟩ 1 sampleItem 5 rfl

/-- C2: for every page `p`, `apiEndpoint p` is exactly the generated
client's refresh-token list call with `page = p`, `pageSize = PAGE_SIZE`
and `user = userId`, and the promise is returned unchanged. -/
theorem apiEndpoint_is_list_call (c : UserOAuthRefreshList) (p : Nat) :
    c.apiEndpoint p
      = (Oauth2Api.mk DEFAULT_CONFIG).oauth2RefreshTokensList
          ⟨c.userId, "expires", p, PAGE_SIZE⟩ :=
  rfl

/-- C3: `row item` maps the record's fields directly to cells: the
rendered texts are the provider's name, the localized expiration
timestamp, and the scopes joined by `", "` in order, with no text in the
fourth cell; and the only bound delete call sits in the fourth cell and
deletes by the record's identifier. -/
theorem row_cell_mapping (c : UserOAuthRefreshList)
    (item : ExpiringBaseGrantModel) :
    (c.row item).map TemplateResult.renderedText
      = [some item.provider.name,
         some ((item.expires.map JSDate.toLocaleString).getD ""),
         some (String.intercalate ", " item.scope),
         none] ∧
    (c.row item).map TemplateResult.boundDelete
      = [none, none, none,
         some (ApiCall.oauth2RefreshTokensDelete (item.pk.getD 0))] := by
  constructor <;>
    simp [UserOAuthRefreshList.row, TemplateResult.renderedText,
          TemplateResult.boundDelete, Oauth2Api.oauth2RefreshTokensDelete]

/-- C4: `columns` always returns exactly the provider, expiration and
scope columns plus one unlabeled action column, and nothing else. -/
theorem columns_are_entity_fields (c : UserOAuthRefreshList) :
    c.columns
      = [⟨"Provider", some "provider"⟩, ⟨"Expires", some "expires"⟩,
         ⟨"Scopes", some "scope"⟩, ⟨"", none⟩] :=
  rfl

/-- C5: every API call the component can make — the one behind
`apiEndpoint` and the ones reachable from any rendered row — is one of
the two refresh-token operations; no other endpoint of the generated
client is ever invoked. -/
theorem only_refresh_token_ops (c : UserOAuthRefreshList) (p : Nat)
    (item : ExpiringBaseGrantModel) :
    (((c.apiEndpoint p).calls
        ++ (c.row item).flatMap TemplateResult.calls).all
      ApiCall.isRefreshTokenOp) = true := by
  simp [UserOAuthRefreshList.apiEndpoint, Oauth2Api.oauth2RefreshTokensList,
        UserOAuthRefreshList.row, TemplateResult.calls, ApiPromise.calls,
        Oauth2Api.oauth2RefreshTokensDelete, ApiCall.isRefreshTokenOp]

/-- C6: neither `apiEndpoint` nor the per-row delete callback attaches any
rejection handler: each returns the client's bare promise, so under every
environment the resolution is exactly the environment's verdict on the
underlying call (a rejection propagates unchanged), and the component's
own state is not altered. -/
theorem no_error_handling (c : UserOAuthRefreshList) (p : Nat)
    (item : ExpiringBaseGrantModel)
    (env : ApiCall → Except ApiError (AKResponse ExpiringBaseGrantModel))
    (envD : ApiCall → Except ApiError Unit) :
    (c.apiEndpoint p).hasRejectionHandler = false ∧
    (c.apiEndpoint p).resolve env
      = env (.oauth2RefreshTokensList ⟨c.userId, "expires", p, PAGE_SIZE⟩) ∧
    ((c.row item).map fun cell =>
        (cell.deletePromise).map fun pr =>
          (pr.hasRejectionHandler, pr.resolve envD))
      = [none, none, none,
         some (false, envD (.oauth2RefreshTokensDelete (item.pk.getD 0)))] ∧
    (c.apiEndpointSt p).2 = c := by
  refine ⟨rfl, rfl, ?_, rfl⟩
  simp [UserOAuthRefreshList.row, TemplateResult.deletePromise,
        ApiPromise.resolve, ApiPromise.hasRejectionHandler,
        Oauth2Api.oauth2RefreshTokensDelete]

/-- C7: the `ordering` parameter sent in every list request is the fixed
string "expires", while the component's declared `order` field is
"-expires", and the two never agree. -/
theorem ordering_param_fixed (c : UserOAuthRefreshList) (p : Nat) :
    ((c.apiEndpoint p).calls.map ApiCall.orderingParam) = [some "expires"] ∧
    c.order = "-expires" ∧
    ("expires" : String) ≠ "-expires" :=
  ⟨rfl, rfl, by decide⟩

/-- C8: header and rows agree in arity: `columns` has exactly 4 entries
and `row item` has exactly 4 cells for every record. -/
theorem columns_row_arity_agree (c : UserOAuthRefreshList)
    (item : ExpiringBaseGrantModel) :
    (c.columns).length = 4 ∧ (c.row item).length = 4 :=
  ⟨rfl, rfl⟩

/-- C9: `row` is total on records with absent optional fields: a missing
expiration renders the second cell empty, and a missing or zero
identifier makes the delete callback target id 0 instead of failing. -/
theorem row_total_on_missing_optionals (c : UserOAuthRefreshList)
    (item : ExpiringBaseGrantModel)
    (h1 : item.expires = none)
    (h2 : item.pk = none ∨ item.pk = some 0) :
    (c.row item).length = 4 ∧
    ((c.row item).map TemplateResult.renderedText).get? 1
      = some (some "") ∧
    ((c.row item).map TemplateResult.boundDelete).get? 3
      = some (some (ApiCall.oauth2RefreshTokensDelete 0)) := by
  refine ⟨rfl, ?_, ?_⟩
  · simp [UserOAuthRefreshList.row, TemplateResult.renderedText, h1]
  · rcases h2 with h2 | h2 <;>
      simp [UserOAuthRefreshList.row, TemplateResult.boundDelete,
            Oauth2Api.oauth2RefreshTokensDelete, h2]

/-- Witness for C9 at a concrete record with no optional fields. -/
theorem row_total_on_missing_optionals_witness :
    ((UserOAuthRefreshList.mk none).row bareItem).length = 4 ∧
    (((UserOAuthRefreshList.mk none).row bareItem).map
        TemplateResult.renderedText).get? 1 = some (some "") ∧
    (((UserOAuthRefreshList.mk none).row bareItem).map
        TemplateResult.boundDelete).get? 3
      = some (some (ApiCall.oauth2RefreshTokensDelete 0)) :=
  row_total_on_missing_optionals ⟨none⟩ bareItem rfl (Or.inl rfl)
